import Mathlib

/-!
Verification of the provisioning/teardown module `parlai/mturk/core/setup_aws_ec2.py`.

The Python module is shallowly embedded: each provider call (AWS RDS / EC2 /
IAM / MTurk) is an external collaborator, so its responses appear as explicit
observation parameters or as a small provider state machine; each Python
function of the module becomes a Lean function over those observations.
Python `float` money arithmetic is modelled by exact rationals (`ℚ`): the
multiplications by the literal `1.2` and the `<` comparison are embedded as
exact rational operations.  Python exceptions are modelled by explicit
outcome types: `ClientError` carries its provider error code; `quit()` is a
distinct outcome; a Python `TypeError`/`NameError` raised by the interpreter
itself is likewise a distinct outcome.
-/

/-! ## Module-level constants (lines 23-49 of the source) -/

def rds_security_group_name : String := "parlai-mturk-db-security-group"

def rds_db_instance_class : String := "db.t2.medium"

/-- Names bound at the top level of the module `setup_aws_ec2.py`: the
imports (lines 6-21), module constants (lines 23-49) and `def`s.  Listed in
source order.  Notably, no assignment to `iam_role_name` exists anywhere in
the module, although `clean_aws` (lines 536, 544, 551) reads that name. -/
def module_global_names : List String :=
  ["os", "sys", "shutil", "call", "zipfile", "boto3", "botocore", "time",
   "json", "webbrowser", "hashlib", "getpass", "paramiko",
   "ClientError", "ProfileNotFound",
   "setup_database_engine", "init_database", "check_database_health",
   "aws_profile_name", "region_name", "user_name",
   "api_gateway_name", "endpoint_api_name_html", "endpoint_api_name_json",
   "rds_db_instance_identifier", "rds_db_name", "rds_username", "rds_password",
   "rds_security_group_name", "rds_security_group_description",
   "rds_db_instance_class",
   "parent_dir", "generic_files_to_copy", "ec2_server_zip_file_name",
   "mturk_hit_frame_height",
   "setup_aws_credentials", "get_ec2_details", "setup_rds",
   "remove_rds_database", "create_hit_config", "setup_ec2_server_api",
   "calculate_mturk_cost", "check_mturk_balance", "get_mturk_client",
   "create_hit_type", "create_hit_with_hit_type", "setup_aws", "clean_aws"]

/-! ## Error and status types -/

/-- A botocore `ClientError`, classified by its provider error code. -/
inductive AwsErr where
  | clientError (code : String)
deriving DecidableEq, Repr

/-- RDS instance status values observed through `describe_db_instances`. -/
inductive DbStatus where
  | creating
  | available
  | deleting
  | backingUp
  | modifying
  | failed
deriving DecidableEq, Repr

/-- Result of `check_database_health()` from the external `data_model`
collaborator (imported at line 21; consumed at lines 180-188). -/
inductive Health where
  | healthy
  | missing_table
  | inconsistent_schema
  | unknown_error
deriving DecidableEq, Repr

/-! ## ListingEconomics: `calculate_mturk_cost` (lines 298-324) -/

/-- The `payment_opt` dict: either a reward payment
(`type == 'reward'`, with `num_hits`, `num_assignments`, `reward`) or a
bonus payment (`type == 'bonus'`, with `amount`). -/
inductive PaymentOpt where
  | reward (num_hits num_assignments : ℕ) (reward : ℚ)
  | bonus (amount : ℚ)
deriving DecidableEq, Repr

/-- Embedding of `calculate_mturk_cost` (lines 317-324): the reward branch
computes `num_hits * num_assignments * reward * 1.2` and multiplies by a
further `1.2` when `num_assignments >= 10`; the bonus branch computes
`amount * 1.2`. -/
def calculate_mturk_cost (payment_opt : PaymentOpt) : ℚ :=
  match payment_opt with
  | .reward num_hits num_assignments reward =>
    let total_cost : ℚ := (num_hits : ℚ) * (num_assignments : ℚ) * reward * 1.2
    if num_assignments ≥ 10 then total_cost * 1.2 else total_cost
  | .bonus amount => amount * 1.2

/-! ## ListingEconomics: `check_mturk_balance` (lines 326-354) -/

/-- Outcome of a call to `check_mturk_balance`: a returned boolean, a call
to `quit()` (process termination), a re-raised `ClientError` with the given
code, or a `TypeError` raised by the interpreter. -/
inductive MturkBalanceOutcome where
  | returned (b : Bool)
  | quit
  | raised (code : String)
  | typeError
deriving DecidableEq, Repr

/-- Embedding of `check_mturk_balance` (lines 326-354).
`balanceQuery` is the observed result of `client.get_account_balance()`.
On a `ClientError` with code `RequestError` the source prints an actionable
message and calls `quit()` (lines 342-344); any other `ClientError` is
re-raised (line 346).  On success the source computes
`balance_needed = balance_needed * 1.2` (line 348) and compares; in the
insufficient branch (line 351) it evaluates
`"...increase your balance to at least " + balance_needed + ", and then try
again."`, a `str + float` concatenation, which in Python 3 raises
`TypeError` before the `return False` at line 352 is reached. -/
def check_mturk_balance (balanceQuery : Except AwsErr ℚ) (balance_needed : ℚ) :
    MturkBalanceOutcome :=
  match balanceQuery with
  | .error (.clientError code) =>
    if code = "RequestError" then .quit else .raised code
  | .ok user_balance =>
    let needed : ℚ := balance_needed * 1.2
    if user_balance < needed then .typeError
    else .returned true

/-! ## DatabaseProvisioner: `setup_rds` (lines 84-193)

One iteration of the `while not rds_instance_is_ready` loop (lines 118-191)
is driven by the observations made during that iteration: the result of
`create_db_instance` (line 121), the first `describe_db_instances` (line
142), the sequence of describe results during the `deleting` wait (lines
157-162), the sequence during the `creating` wait (lines 169-174), and the
result of `check_database_health()` (line 180). -/

/-- One record returned by `describe_db_instances`: the fields of
`db_instance` that the loop reads (`DBInstanceClass`, `DBInstanceStatus`,
`Endpoint.Address`). -/
structure DbDescription where
  instClass : String
  status : DbStatus
  host : String
deriving DecidableEq, Repr

/-- Observations made by one iteration of the provisioning loop. -/
structure RdsIterObs where
  createResult : Except AwsErr Unit
  describe0 : Except AwsErr DbDescription
  pollTrace1 : List (Except AwsErr DbDescription)
  pollTrace2 : List (Except AwsErr DbDescription)
  health : Health
deriving Repr

/-- Side effects of the loop that the claims talk about: issuing
`create_db_instance` (a successful creation, line 121), calling
`remove_rds_database()` (lines 148, 186), and calling `init_database()`
(line 183). -/
inductive RdsAction where
  | createDb
  | removeDb
  | initDb
deriving DecidableEq, Repr

/-- A `while status == bad: sleep; describe; status = ...` polling loop
(lines 157-162 and 169-174): starting from the current description, consume
successive describe results while the status equals `bad`; stop at the
first description with a different status, or at the first `ClientError`;
`none` when the supplied trace runs out while still polling (the source
loop would still be waiting). -/
def pollWhileStatus (bad : DbStatus) :
    DbDescription → List (Except AwsErr DbDescription) →
    Option (Except AwsErr DbDescription)
  | cur, trace =>
    if cur.status = bad then
      match trace with
      | [] => none
      | .ok d :: rest => pollWhileStatus bad d rest
      | .error e :: _ => some (.error e)
    else some (.ok cur)

/-- How the two status waits of one iteration resolve, starting from the
description `d0` obtained at line 142. -/
inductive StatusResolution where
  | settled (d : DbDescription)
  | deletingPollError
  | creatingPollError (e : AwsErr)
  | stuck
deriving DecidableEq, Repr

/-- The two status waits of one iteration: the `deleting` wait (lines
154-165, wrapped in `try/except ClientError` whose handler restarts the
loop) followed by the `creating` wait (lines 167-174, not wrapped: a
`ClientError` there propagates out of `setup_rds`). -/
def resolve_status (obs : RdsIterObs) (d0 : DbDescription) : StatusResolution :=
  match (if d0.status = .deleting
         then pollWhileStatus .deleting d0 obs.pollTrace1
         else some (.ok d0)) with
  | none => .stuck
  | some (.error _) => .deletingPollError
  | some (.ok d1) =>
    match (if d1.status = .creating
           then pollWhileStatus .creating d1 obs.pollTrace2
           else some (.ok d1)) with
    | none => .stuck
    | some (.error e) => .creatingPollError e
    | some (.ok d2) => .settled d2

/-- Outcome of one iteration of the provisioning loop: return the host
(`rds_instance_is_ready = True`, lines 190-193), restart the loop
(`continue`, lines 150, 165, 188), propagate an uncaught `ClientError`, or
keep polling forever (trace exhausted). -/
inductive IterOutcome where
  | success (host : String)
  | retry
  | fatal (e : AwsErr)
  | hang
deriving DecidableEq, Repr

/-- The iteration body after the `create_db_instance` call, with `acc` the
actions already issued (lines 142-191).  A describe failure at line 142 is
not wrapped and propagates.  A class mismatch (lines 146-150) calls
`remove_rds_database()` and restarts the loop.  After the waits resolve,
the health check drives lines 181-188: `missing_table`/`healthy` run
`init_database()` and the iteration succeeds with the last described host;
`inconsistent_schema`/`unknown_error` call `remove_rds_database()` and
restart the loop. -/
def setup_rds_after_create (obs : RdsIterObs) (acc : List RdsAction) :
    IterOutcome × List RdsAction :=
  match obs.describe0 with
  | .error e => (.fatal e, acc)
  | .ok d0 =>
    if d0.instClass = rds_db_instance_class then
      match resolve_status obs d0 with
      | .stuck => (.hang, acc)
      | .deletingPollError => (.retry, acc)
      | .creatingPollError e => (.fatal e, acc)
      | .settled d2 =>
        match obs.health with
        | .healthy => (.success d2.host, acc ++ [.initDb])
        | .missing_table => (.success d2.host, acc ++ [.initDb])
        | .inconsistent_schema => (.retry, acc ++ [.removeDb])
        | .unknown_error => (.retry, acc ++ [.removeDb])
    else (.retry, acc ++ [.removeDb])

/-- One full iteration of the loop, starting at the
`create_db_instance` call (lines 120-140): a successful creation issues
`createDb`; a `ClientError` with code `DBInstanceAlreadyExists` is
tolerated (lines 137-138); any other `ClientError` is re-raised
(lines 139-140). -/
def setup_rds_iter (obs : RdsIterObs) : IterOutcome × List RdsAction :=
  match obs.createResult with
  | .ok _ => setup_rds_after_create obs [.createDb]
  | .error (.clientError code) =>
    if code = "DBInstanceAlreadyExists" then setup_rds_after_create obs []
    else (.fatal (.clientError code), [])

/-- The actions issued by the `create_db_instance` step alone. -/
def create_acts (obs : RdsIterObs) : List RdsAction :=
  match obs.createResult with
  | .ok _ => [.createDb]
  | .error _ => []

/-- Result of a whole `setup_rds` run, with the trace of issued actions. -/
inductive SetupResult where
  | done (host : String) (trace : List RdsAction)
  | raised (e : AwsErr) (trace : List RdsAction)
  | hang
deriving DecidableEq, Repr

/-- Prefix a run result with the actions of an earlier iteration. -/
def prepend_trace (acts : List RdsAction) : SetupResult → SetupResult
  | .done h tr => .done h (acts ++ tr)
  | .raised e tr => .raised e (acts ++ tr)
  | .hang => .hang

/-- The `while not rds_instance_is_ready` loop of `setup_rds`
(lines 117-193), with `fuel` bounding the number of iterations unrolled and
one `RdsIterObs` supplied per iteration; running out of fuel or of
observations models a run still looping. -/
def setup_rds : ℕ → List RdsIterObs → SetupResult
  | 0, _ => .hang
  | _ + 1, [] => .hang
  | n + 1, obs :: rest =>
    match setup_rds_iter obs with
    | (.success h, acts) => .done h acts
    | (.retry, acts) => prepend_trace acts (setup_rds n rest)
    | (.fatal e, acts) => .raised e acts
    | (.hang, _) => .hang

/-! ## Theorems: economics -/

/-- Claim C2: for a reward action `calculate_mturk_cost` returns
`num_hits * num_assignments * reward * 1.2`, with one additional
multiplication by `1.2` exactly when `num_assignments >= 10` (the two 20%
surcharges compound multiplicatively); for a bonus action it returns
`amount * 1.2`. -/
theorem calculate_mturk_cost_formula (h a : ℕ) (r q : ℚ) :
    calculate_mturk_cost (.reward h a r)
      = (if 10 ≤ a then (h : ℚ) * (a : ℚ) * r * 1.2 * 1.2
         else (h : ℚ) * (a : ℚ) * r * 1.2)
    ∧ calculate_mturk_cost (.bonus q) = q * 1.2 := by
  constructor
  · simp only [calculate_mturk_cost, ge_iff_le]
  · rfl

/-- Claim C3 (code bug witness): with `balance_needed = 1` the fee-inclusive
requirement is `1.2`; a reported balance of `1` is strictly below it, and the
run raises a `TypeError` from the `str + float` concatenation in the warning
message instead of returning `False`; a balance exactly equal to `1.2` is
sufficient and returns `True`. -/
theorem check_mturk_balance_insufficient_type_error :
    check_mturk_balance (.ok 1) 1 = .typeError
    ∧ check_mturk_balance (.ok 1.2) 1 = .returned true := by
  constructor <;> norm_num [check_mturk_balance]

/-- Claim C6: when the balance query fails with the provider code
`RequestError` (account not linked to the marketplace), `check_mturk_balance`
terminates the process (`quit()`) with an actionable message rather than
returning a value; any other provider error code from the balance query is
re-raised to the caller. -/
theorem check_mturk_balance_fatal_policy (code : String) (b : ℚ) :
    (code = "RequestError" →
      check_mturk_balance (.error (.clientError code)) b = .quit)
    ∧ (code ≠ "RequestError" →
      check_mturk_balance (.error (.clientError code)) b = .raised code) := by
  constructor
  · intro hc
    simp [check_mturk_balance, hc]
  · intro hc
    simp [check_mturk_balance, hc]

/-! ## SecurityGroupManager: the security-group phase of `setup_rds`
(lines 85-115) -/

/-- State of the EC2 security-group collaborator: the existing groups as
(name, id) pairs, the group ids for which an ingress rule has been
authorized (one list entry per issued `authorize_security_group_ingress`
call), and the next id the provider will assign. -/
structure Ec2State where
  groups : List (String × ℕ)
  ingress : List ℕ
  nextId : ℕ
deriving DecidableEq, Repr

/-- Provider model (external boundary, spec §6): `create_security_group`
fails with the code `InvalidGroup.Duplicate` when a group with the
requested name already exists, and otherwise creates the group under a
fresh id. -/
def create_security_group (name : String) (s : Ec2State) :
    Except AwsErr (ℕ × Ec2State) :=
  if s.groups.any (fun p => p.1 = name) then
    .error (.clientError "InvalidGroup.Duplicate")
  else
    .ok (s.nextId,
         { s with groups := s.groups ++ [(name, s.nextId)],
                  nextId := s.nextId + 1 })

/-- Provider model (external boundary, spec §6): `describe_security_groups`
filtered by group name; the source reads `['SecurityGroups'][0]['GroupId']`
(line 115), i.e. the id of the first match. -/
def describe_security_groups (name : String) (s : Ec2State) : Option ℕ :=
  ((s.groups.filter (fun p => p.1 = name)).head?).map (fun p => p.2)

/-- Provider model (external boundary, spec §6):
`authorize_security_group_ingress` records one ingress rule for the group
(the source authorizes tcp port 5432 from `0.0.0.0/0` and `::/0`,
lines 99-109). -/
def authorize_security_group_ingress (gid : ℕ) (s : Ec2State) : Ec2State :=
  { s with ingress := s.ingress ++ [gid] }

/-- The `try/except` of lines 92-115, given the observed result `r` of the
`create_security_group` call: on success, authorize the ingress rule and
report the new id (third component: whether an ingress authorization was
issued); on a `ClientError` with code `InvalidGroup.Duplicate`, look the id
up instead and issue no ingress rule; on any other `ClientError` the
`except` block matches but its `if` does not, so the error is swallowed and
`security_group_id` keeps its initial `None` (line 90). -/
def ensure_security_group_given (r : Except AwsErr (ℕ × Ec2State))
    (s : Ec2State) : Option ℕ × Ec2State × Bool :=
  match r with
  | .ok (gid, s1) => (some gid, authorize_security_group_ingress gid s1, true)
  | .error (.clientError code) =>
    if code = "InvalidGroup.Duplicate" then
      (describe_security_groups rds_security_group_name s, s, false)
    else (none, s, false)

/-- The whole security-group phase of `setup_rds` (lines 92-115). -/
def ensure_security_group (s : Ec2State) : Option ℕ × Ec2State × Bool :=
  ensure_security_group_given (create_security_group rds_security_group_name s) s

/-! ## DatabaseDecommissioner: `remove_rds_database` (lines 195-230) -/

/-- Observations made by one call to `remove_rds_database`: the result of
the initial describe (line 199), the result of the describe issued right
after the delete (line 211), and the describe results during the
`deleting` wait (lines 220-225). -/
structure RemoveObs where
  describe0 : Except AwsErr DbDescription
  describeAfterDelete : Except AwsErr DbDescription
  pollTrace : List (Except AwsErr DbDescription)
deriving Repr

/-- Provider calls issued by `remove_rds_database` that the claims talk
about. -/
inductive RemoveAction where
  | deleteDb
deriving DecidableEq, Repr

/-- Outcome of `remove_rds_database`: the call always returns normally
(every `ClientError` inside it is caught by the inner handler at line 226
or the outer handler at line 229), or is still polling when the supplied
trace runs out. -/
inductive RemoveOutcome where
  | completed (actions : List RemoveAction)
  | hung
deriving DecidableEq, Repr

/-- The final `while status == 'deleting'` wait of `remove_rds_database`
(lines 219-227): a `ClientError` during the wait is caught by the inner
handler (`"RDS: Database deleted."`). -/
def remove_rds_poll (d : DbDescription) (acts : List RemoveAction)
    (trace : List (Except AwsErr DbDescription)) : RemoveOutcome :=
  match pollWhileStatus .deleting d trace with
  | none => .hung
  | some _ => .completed acts

/-- Embedding of `remove_rds_database` (lines 195-230).  If the initial
describe fails with a `ClientError`, the outer handler (line 229) reports
`"RDS: Database doesn't exist."` and the call completes without issuing a
delete.  Otherwise, when the instance is already `deleting` the delete is
skipped (lines 204-205); else `delete_db_instance` is issued and the
instance re-described (lines 207-214), a describe failure there being
caught by the outer handler; finally the `deleting` wait runs. -/
def remove_rds_database (obs : RemoveObs) : RemoveOutcome :=
  match obs.describe0 with
  | .error _ => .completed []
  | .ok d0 =>
    if d0.status = .deleting then
      remove_rds_poll d0 [] obs.pollTrace
    else
      match obs.describeAfterDelete with
      | .error _ => .completed [.deleteDb]
      | .ok d1 => remove_rds_poll d1 [.deleteDb] obs.pollTrace

/-! ## Teardown: the role-removal step of `clean_aws` (lines 530-556) -/

/-- Python-interpreter-level errors relevant to this module. -/
inductive PyError where
  | clientError (code : String)
  | nameError (name : String)
deriving DecidableEq, Repr

/-- Observed results of the three IAM calls the role-removal step would
issue (detach `AmazonRDSFullAccess`, detach
`AmazonMechanicalTurkFullAccess`, `delete_role`). -/
structure IamObs where
  detachRds : Except AwsErr Unit
  detachMturk : Except AwsErr Unit
  deleteRole : Except AwsErr Unit
deriving Repr

/-- Embedding of the role-removal step of `clean_aws` (lines 530-556).
Each `detach_role_policy` call names the global `iam_role_name` (lines 536,
544), as does `delete_role` (line 551); evaluating that name is the first
thing the step does.  Since `iam_role_name` is not among the module's
globals, Python raises `NameError`, which neither the inner
`except ClientError` handlers (lines 539, 547) nor the outer one
(line 555) catches, so it propagates to the caller.  Were the name
defined, each detach failure would be ignored and a `delete_role` failure
would be treated as "role doesn't exist" success. -/
def remove_role_step (obs : IamObs) : Except PyError Unit :=
  if module_global_names.contains "iam_role_name" then
    match obs.detachRds with
    | _ =>
      match obs.detachMturk with
      | _ =>
        match obs.deleteRole with
        | .ok _ => .ok ()
        | .error _ => .ok ()
  else .error (.nameError "iam_role_name")

/-! ## DeploymentPublisher: destination routing in `setup_ec2_server_api`
(lines 273-279) -/

/-- Python `str.split` with a single-character separator: `"a/b"` ↦
`["a", "b"]`, `""` ↦ `[""]`, `"/"` ↦ `["", ""]`. -/
def splitOnChar (c : Char) : List Char → List (List Char)
  | [] => [[]]
  | x :: xs =>
    let rest := splitOnChar c xs
    if x = c then [] :: rest
    else
      match rest with
      | [] => [[x]]
      | y :: ys => (x :: y) :: ys

/-- Boolean list-prefix test. -/
def isPrefixOfB : List Char → List Char → Bool
  | [], _ => true
  | _ :: _, [] => false
  | a :: as, b :: bs => a = b && isPrefixOfB as bs

/-- Boolean list-infix test. -/
def isInfixOfB (needle : List Char) : List Char → Bool
  | [] => isPrefixOfB needle []
  | c :: rest => isPrefixOfB needle (c :: rest) || isInfixOfB needle rest

/-- Python `needle in hay` on strings: substring containment. -/
def pyContains (needle hay : String) : Bool :=
  isInfixOfB needle.toList hay.toList

/-- `file_src.split('/')[-1]` (lines 275, 278): the final path segment. -/
def last_path_segment (s : String) : String :=
  String.mk ((splitOnChar (Char.ofNat 47) s.toList).getLastD [])

/-- The remote application root `dest_path` (line 271). -/
def dest_path : String := "/var/www/demoapp/"

/-- Embedding of the destination computation of `setup_ec2_server_api`
(lines 274-278): a source path satisfying `'html' in file_src` (substring
containment) is routed to the remote `html/` subdirectory; every other
entry goes directly under the application root; in both cases the filename
is `file_src.split('/')[-1]`. -/
def file_dest (file_src : String) : String :=
  if pyContains "html" file_src then
    dest_path ++ "html/" ++ last_path_segment file_src
  else
    dest_path ++ last_path_segment file_src

/-- Written from the claim's words (for refinement comparison with
`file_dest`): an entry is routed under `html/` exactly when its source path
contains an "html" path segment, i.e. when one of the `/`-separated
components is the string `"html"`. -/
def file_dest_of_claim (file_src : String) : String :=
  if (splitOnChar (Char.ofNat 47) file_src.toList).contains "html".toList then
    dest_path ++ "html/" ++ last_path_segment file_src
  else
    dest_path ++ last_path_segment file_src

/-- Written from the amended claim's words: an entry is routed under
`html/` exactly when its source path contains `"html"` as a substring
(not necessarily as a whole path segment); the filename is the final path
segment in both cases. -/
def file_dest_of_amended_claim (file_src : String) : String :=
  if pyContains "html" file_src then
    dest_path ++ "html/" ++ last_path_segment file_src
  else
    dest_path ++ last_path_segment file_src

/-! ## ListingLifecycleManager: `create_hit_config` (lines 233-248) -/

/-- The `hit_config` dict written to `hit_config.json` (lines 237-243). -/
structure HitConfigData where
  task_description : String
  num_hits : ℕ
  num_assignments : ℕ
  is_sandbox : Bool
  mturk_submit_url : String
deriving DecidableEq, Repr

/-- The sandbox marketplace submit URL (line 234). -/
def mturk_submit_url_sandbox : String :=
  "https://workersandbox.mturk.com/mturk/externalSubmit"

/-- The production marketplace submit URL (line 236). -/
def mturk_submit_url_production : String :=
  "https://www.mturk.com/mturk/externalSubmit"

/-- The record `create_hit_config` builds (lines 234-243): the submit URL
starts as the sandbox URL and is overwritten with the production URL when
`is_sandbox` is false. -/
def mk_hit_config (task_description : String) (num_hits num_assignments : ℕ)
    (is_sandbox : Bool) : HitConfigData :=
  let url0 := mturk_submit_url_sandbox
  let url := if !is_sandbox then mturk_submit_url_production else url0
  ⟨task_description, num_hits, num_assignments, is_sandbox, url⟩

/-- File-system operations `create_hit_config` can perform on
`hit_config.json`: `os.remove` (line 246) and an `open(..., 'w')` write of
the JSON dump of the dict (lines 247-248).  The file's contents are
modelled by the dict they serialize (`json.dumps` is injective and
deterministic on these dicts). -/
inductive HitConfigFileOp where
  | removeFile
  | writeFile (c : HitConfigData)
deriving DecidableEq, Repr

/-- Effect of one file operation on the `hit_config.json` slot. -/
def applyHitConfigFileOp (fs : Option HitConfigData) (op : HitConfigFileOp) :
    Option HitConfigData :=
  match fs, op with
  | _, .removeFile => none
  | _, .writeFile c => some c

/-- The operations issued by `create_hit_config` (lines 244-248): remove
the file when it exists, then write the new dict. -/
def create_hit_config_ops (task_description : String)
    (num_hits num_assignments : ℕ) (is_sandbox : Bool)
    (fs : Option HitConfigData) : List HitConfigFileOp :=
  (if fs.isSome then [.removeFile] else [])
    ++ [.writeFile (mk_hit_config task_description num_hits num_assignments is_sandbox)]

/-- Embedding of `create_hit_config` (lines 233-248) as a transformer of
the `hit_config.json` slot. -/
def create_hit_config (task_description : String)
    (num_hits num_assignments : ℕ) (is_sandbox : Bool)
    (fs : Option HitConfigData) : Option HitConfigData :=
  (create_hit_config_ops task_description num_hits num_assignments is_sandbox fs).foldl
    applyHitConfigFileOp fs

/-! ## Theorems: provisioning loop -/

/-- The creation step of an iteration never issues a `removeDb`. -/
theorem create_acts_count_removeDb (obs : RdsIterObs) :
    (create_acts obs).count RdsAction.removeDb = 0 := by
  unfold create_acts
  cases obs.createResult <;> simp

/-- Claim C1: in a provisioning iteration that reaches the schema health
check (the creation call succeeded or hit `DBInstanceAlreadyExists`, the
describe succeeded, the instance class matches, and the status waits
settled on a final description `d2`): if health is `healthy` or
`missing_table` the run initializes the schema and the loop ends returning
the endpoint host; if health is `inconsistent_schema` or `unknown_error`
the iteration decommissions the instance — exactly one `removeDb` in its
action trace — and the loop restarts from instance creation (the next
iteration begins at the `create_db_instance` step). -/
theorem setup_rds_health_policy
    (obs : RdsIterObs) (d0 d2 : DbDescription)
    (hc : obs.createResult = .ok () ∨
          obs.createResult = .error (.clientError "DBInstanceAlreadyExists"))
    (hd : obs.describe0 = .ok d0)
    (hcl : d0.instClass = rds_db_instance_class)
    (hs : resolve_status obs d0 = .settled d2) :
    ((obs.health = .healthy ∨ obs.health = .missing_table) →
      ∀ n rest, setup_rds (n + 1) (obs :: rest)
        = .done d2.host (create_acts obs ++ [RdsAction.initDb]))
    ∧ ((obs.health = .inconsistent_schema ∨ obs.health = .unknown_error) →
      setup_rds_iter obs = (.retry, create_acts obs ++ [RdsAction.removeDb])
      ∧ (create_acts obs ++ [RdsAction.removeDb]).count RdsAction.removeDb = 1
      ∧ ∀ n rest, setup_rds (n + 1) (obs :: rest)
          = prepend_trace (create_acts obs ++ [RdsAction.removeDb]) (setup_rds n rest)) := by
  have hiter : setup_rds_iter obs = setup_rds_after_create obs (create_acts obs) := by
    rcases hc with h | h <;> simp [setup_rds_iter, create_acts, h]
  constructor
  · rintro (hh | hh) n rest <;>
      simp [setup_rds, hiter, setup_rds_after_create, hd, hcl, hs, hh]
  · rintro (hh | hh) <;>
      refine ⟨by simp [hiter, setup_rds_after_create, hd, hcl, hs, hh], ?_, ?_⟩ <;>
      simp [setup_rds, hiter, setup_rds_after_create, hd, hcl, hs, hh,
            List.count_append, create_acts_count_removeDb]

/-- Witness for C1 at concrete iterations: a run whose single iteration
observes a healthy schema ends returning the host, and an iteration
observing an inconsistent schema retries after exactly one decommission. -/
theorem setup_rds_health_policy_witness :
    setup_rds 1
      [⟨.ok (), .ok ⟨rds_db_instance_class, .available, "db-host"⟩, [], [], .healthy⟩]
      = .done "db-host" [RdsAction.createDb, RdsAction.initDb]
    ∧ setup_rds_iter
        ⟨.ok (), .ok ⟨rds_db_instance_class, .available, "db-host"⟩, [], [],
         .inconsistent_schema⟩
      = (.retry, [RdsAction.createDb, RdsAction.removeDb]) :=
  ⟨(setup_rds_health_policy
      ⟨.ok (), .ok ⟨rds_db_instance_class, .available, "db-host"⟩, [], [], .healthy⟩
      ⟨rds_db_instance_class, .available, "db-host"⟩
      ⟨rds_db_instance_class, .available, "db-host"⟩
      (Or.inl rfl) rfl rfl rfl).1 (Or.inl rfl) 0 [],
   ((setup_rds_health_policy
      ⟨.ok (), .ok ⟨rds_db_instance_class, .available, "db-host"⟩, [], [],
       .inconsistent_schema⟩
      ⟨rds_db_instance_class, .available, "db-host"⟩
      ⟨rds_db_instance_class, .available, "db-host"⟩
      (Or.inl rfl) rfl rfl rfl).2 (Or.inl rfl)).1⟩

/-- Witness for C6 at concrete inputs: a `RequestError` quits; a
`Throttling` error is re-raised. -/
theorem check_mturk_balance_fatal_policy_witness :
    check_mturk_balance (.error (.clientError "RequestError")) 5 = .quit
    ∧ check_mturk_balance (.error (.clientError "Throttling")) 5
        = .raised "Throttling" :=
  ⟨(check_mturk_balance_fatal_policy "RequestError" 5).1 rfl,
   (check_mturk_balance_fatal_policy "Throttling" 5).2 (by decide)⟩

/-! ## Theorems: security group, decommission, teardown, deployment,
listing configuration -/

/-- Claim C5: running the security-group ensure phase twice from a state
with no group of the fixed name: the first run creates the group (id
`s0.nextId`) and issues exactly one ingress authorization; the second run
resolves the duplicate-name error by lookup, returns the same id, issues
no ingress authorization, and leaves the provider state unchanged — so no
duplicate ingress rule is issued. -/
theorem ensure_security_group_idempotent (s0 : Ec2State)
    (hfresh : s0.groups.any (fun p => p.1 = rds_security_group_name) = false) :
    (ensure_security_group s0).1 = some s0.nextId
    ∧ (ensure_security_group s0).2.2 = true
    ∧ (ensure_security_group s0).2.1.ingress = s0.ingress ++ [s0.nextId]
    ∧ ensure_security_group ((ensure_security_group s0).2.1)
        = (some s0.nextId, (ensure_security_group s0).2.1, false) := by
  have h1 : ensure_security_group s0
      = (some s0.nextId,
         ⟨s0.groups ++ [(rds_security_group_name, s0.nextId)],
          s0.ingress ++ [s0.nextId], s0.nextId + 1⟩, true) := by
    simp [ensure_security_group, ensure_security_group_given,
          create_security_group, hfresh, authorize_security_group_ingress]
  have hall : ∀ a ∈ s0.groups, ¬ (a.1 = rds_security_group_name) := by
    simpa [List.any_eq_false] using hfresh
  have hfilter :
      s0.groups.filter (fun p => decide (p.1 = rds_security_group_name)) = [] := by
    rw [List.filter_eq_nil_iff]
    intro a ha
    simpa using hall a ha
  have h2 : ensure_security_group
      (⟨s0.groups ++ [(rds_security_group_name, s0.nextId)],
        s0.ingress ++ [s0.nextId], s0.nextId + 1⟩ : Ec2State)
      = (some s0.nextId,
         ⟨s0.groups ++ [(rds_security_group_name, s0.nextId)],
          s0.ingress ++ [s0.nextId], s0.nextId + 1⟩, false) := by
    simp [ensure_security_group, ensure_security_group_given,
          create_security_group, describe_security_groups,
          List.any_append, List.filter_append, hfilter]
  refine ⟨by rw [h1], by rw [h1], by rw [h1], by rw [h1]; exact h2⟩

/-- Witness for C5 from the empty provider state. -/
theorem ensure_security_group_idempotent_witness :
    (ensure_security_group ⟨[], [], 0⟩).1 = some 0
    ∧ (ensure_security_group ⟨[], [], 0⟩).2.2 = true
    ∧ (ensure_security_group ⟨[], [], 0⟩).2.1.ingress = [] ++ [0]
    ∧ ensure_security_group ((ensure_security_group ⟨[], [], 0⟩).2.1)
        = (some 0, (ensure_security_group ⟨[], [], 0⟩).2.1, false) :=
  ensure_security_group_idempotent ⟨[], [], 0⟩ rfl

/-- Claim C7 (code-bug evaluation): a `create_security_group` failure whose
code is not `InvalidGroup.Duplicate` is swallowed — the phase returns
normally with `security_group_id = None` and an unchanged state instead of
raising — while a `create_db_instance` failure whose code is not
`DBInstanceAlreadyExists` is indeed raised out of `setup_rds`. -/
theorem unclassified_provider_error_eval :
    ensure_security_group_given (.error (.clientError "UnauthorizedOperation")) ⟨[], [], 0⟩
      = (none, ⟨[], [], 0⟩, false)
    ∧ setup_rds_iter ⟨.error (.clientError "AccessDenied"),
        .ok ⟨rds_db_instance_class, .available, "h"⟩, [], [], .healthy⟩
      = (.fatal (.clientError "AccessDenied"), [])
    ∧ setup_rds 1 [⟨.error (.clientError "AccessDenied"),
        .ok ⟨rds_db_instance_class, .available, "h"⟩, [], [], .healthy⟩]
      = .raised (.clientError "AccessDenied") [] :=
  ⟨rfl, rfl, rfl⟩

/-- Claim C8: when the database instance does not exist — the initial
describe fails with a provider error — `remove_rds_database` completes as a
success no-op: it issues no delete and raises nothing to the caller. -/
theorem remove_rds_database_absent (obs : RemoveObs) (e : AwsErr)
    (h : obs.describe0 = .error e) :
    remove_rds_database obs = .completed [] := by
  simp [remove_rds_database, h]

/-- Witness for C8: a describe failing with `DBInstanceNotFound`. -/
theorem remove_rds_database_absent_witness :
    remove_rds_database ⟨.error (.clientError "DBInstanceNotFound"),
      .ok ⟨rds_db_instance_class, .available, "h"⟩, []⟩ = .completed [] :=
  remove_rds_database_absent _ (.clientError "DBInstanceNotFound") rfl

/-- Claim C9 (code-bug evaluation): the role-removal step of `clean_aws`
raises `NameError` on every run — including every run where the role is
absent — because the global `iam_role_name` it reads is never defined in
the module and `NameError` is not caught by any `except ClientError`
handler; it therefore never completes without raising. -/
theorem remove_role_step_raises_name_error (obs : IamObs) :
    remove_role_step obs = .error (.nameError "iam_role_name") := by
  have h : "iam_role_name" ∉ module_global_names := by decide
  simp [remove_role_step, h]

/-- Claim C4 (counterexample): the manifest entry `page.html` contains no
"html" path segment, so the claim routes it directly under the application
root, but the source's substring test `'html' in file_src` routes it under
the remote `html/` subdirectory. -/
theorem file_dest_segment_claim_false :
    file_dest "page.html" = "/var/www/demoapp/html/page.html"
    ∧ file_dest_of_claim "page.html" = "/var/www/demoapp/page.html" := by
  constructor <;> rfl

/-- Claim C4 (amended): a manifest entry is written under the remote
`html/` subdirectory exactly when its source path contains `"html"` as a
substring (not necessarily as a whole path segment); every other entry is
written directly under the application root, and in both cases the
destination filename is the final path segment of the source. -/
theorem file_dest_matches_amended_claim (file_src : String) :
    file_dest file_src = file_dest_of_amended_claim file_src := rfl

/-- Claim C10: the listing-configuration artifact written by
`create_hit_config` carries the sandbox submit URL exactly when the sandbox
flag is set and the production submit URL otherwise, and a pre-existing
file is replaced rather than appended to: running `create_hit_config` twice
leaves the same file contents as running it once with the second
arguments. -/
theorem create_hit_config_replaces_and_selects_url
    (td1 td2 : String) (nh1 nh2 na1 na2 : ℕ) (sb1 sb2 : Bool)
    (fs : Option HitConfigData) :
    create_hit_config td2 nh2 na2 sb2 (create_hit_config td1 nh1 na1 sb1 fs)
      = create_hit_config td2 nh2 na2 sb2 fs
    ∧ (create_hit_config td2 nh2 na2 sb2 fs).map HitConfigData.mturk_submit_url
      = some (if sb2 then mturk_submit_url_sandbox else mturk_submit_url_production) := by
  constructor
  · cases fs <;> rfl
  · cases fs <;> cases sb2 <;> rfl
